import Mathlib

/-!
Shallow embedding of the A2A search-agent scaffold:
the task lifecycle bridge (`AgentTaskManager.execute` / `cancel` in
`agents/search_agent/task_manager.py`), the agent invocation adapter
(`MultiURLBrowser.invoke` in `agents/search_agent/agent.py`), the client
response parsing (`search_agents_Utils/client.py` and
`Scrap_Translate/agent.py`), and the server entry point's flag/env
resolution (`agents/search_agent/__main__.py`).

Python dicts with optional keys become structures of `Option` fields;
asynchronous generators become explicit lists of yielded items; a stream
that raises mid-way is a list of the items yielded before the exception
together with the exception's message; the event queue becomes the list
of events enqueued, in order.
-/

namespace A2ADemo

/-- Task lifecycle states used by the task manager (`a2a.types.TaskState`
members actually referenced by `task_manager.py`). -/
inductive TaskState where
  | submitted
  | working
  | completed
  | failed
deriving DecidableEq, Repr

/-- The identifying fields of an A2A `Task` that `execute` reads:
`task.id` and `task.contextId`. -/
structure TaskInfo where
  id : String
  contextId : String
deriving DecidableEq, Repr

/-- An event enqueued on the `EventQueue` by `execute`: either the newly
created task record (`event_queue.enqueue_event(task)`) or a status
update sent through `TaskUpdater.update_status` carrying the state and
the text of the `new_agent_text_message`. -/
inductive Event where
  | taskCreated (id contextId : String)
  | statusUpdate (id contextId : String) (state : TaskState) (message : String)
deriving DecidableEq, Repr

/-- A dict yielded by `MultiURLBrowser.invoke`, as consumed by `execute`
with `item.get(...)`: every key may be absent. -/
structure UpdateItem where
  is_task_complete : Option Bool := none
  updates : Option String := none
  content : Option String := none
deriving DecidableEq, Repr

/-- `item.get('is_task_complete', False)` in `execute`. -/
def UpdateItem.isFinal (item : UpdateItem) : Bool :=
  item.is_task_complete.getD false

/-- The `async for` loop body of `AgentTaskManager.execute`
(task_manager.py lines 100-127): each non-final item emits a `working`
status update with `item.get('updates', 'Agent is processing...')`; the
first final item emits a `completed` status update with
`item.get('content', 'No content received.')` and `break`s out of the
loop. Returns the events emitted and whether the loop broke at a final
item. -/
def consume (task : TaskInfo) : List UpdateItem → List Event × Bool
  | [] => ([], false)
  | item :: rest =>
    if item.isFinal then
      ([Event.statusUpdate task.id task.contextId TaskState.completed
          (item.content.getD "No content received.")], true)
    else
      let r := consume task rest
      (Event.statusUpdate task.id task.contextId TaskState.working
          (item.updates.getD "Agent is processing...") :: r.1, r.2)

/-- The events `execute` enqueues before the update loop
(task_manager.py lines 85-91): when `context.current_task` is absent, a
new task is created and enqueued; otherwise nothing. -/
def executeCreateEvents (currentTask : Option TaskInfo) (freshTask : TaskInfo) :
    List Event :=
  match currentTask with
  | none => [Event.taskCreated freshTask.id freshTask.contextId]
  | some _ => []

/-- The task object `execute` works with: `context.current_task` if
present, otherwise the freshly allocated one. -/
def executeTask (currentTask : Option TaskInfo) (freshTask : TaskInfo) : TaskInfo :=
  currentTask.getD freshTask

/-- `AgentTaskManager.execute` (task_manager.py lines 63-137).
`currentTask` is `context.current_task`; `freshTask` stands for the task
allocated by `new_task(context.message)` when there is none. The agent
invocation is a generator that yields `items` in order and then, if
`engineError = some e`, raises an exception whose `str` is `e` (if the
loop `break`s at a final item first, the generator is abandoned and the
exception never fires). On an exception the handler emits a `failed`
status update with message `"An error occurred: " ++ e` and re-raises.
Returns the enqueued events in order and the re-raised exception, if
any. -/
def execute (currentTask : Option TaskInfo) (freshTask : TaskInfo)
    (items : List UpdateItem) (engineError : Option String) :
    List Event × Option String :=
  if (consume (executeTask currentTask freshTask) items).2 then
    (executeCreateEvents currentTask freshTask ++
      (consume (executeTask currentTask freshTask) items).1, none)
  else
    match engineError with
    | none =>
        (executeCreateEvents currentTask freshTask ++
          (consume (executeTask currentTask freshTask) items).1, none)
    | some e =>
        (executeCreateEvents currentTask freshTask ++
          (consume (executeTask currentTask freshTask) items).1 ++
          [Event.statusUpdate (executeTask currentTask freshTask).id
            (executeTask currentTask freshTask).contextId TaskState.failed
            ("An error occurred: " ++ e)], some e)

/-- Does a status event carry a terminal state (`completed` or
`failed`)? -/
def Event.isTerminal : Event → Bool
  | Event.statusUpdate _ _ TaskState.completed _ => true
  | Event.statusUpdate _ _ TaskState.failed _ => true
  | _ => false

/-- The error raised by `AgentTaskManager.cancel`:
`ServerError(error=UnsupportedOperationError())`. -/
inductive A2AErrorKind where
  | unsupportedOperation
deriving DecidableEq, Repr

/-- `a2a.utils.errors.ServerError`, wrapping the A2A error it carries. -/
structure ServerError where
  error : A2AErrorKind
deriving DecidableEq, Repr

/-- `AgentTaskManager.cancel` (task_manager.py lines 139-156): logs a
warning and unconditionally raises
`ServerError(error=UnsupportedOperationError())`, touching neither the
task store nor the event queue. Modelled over the task store (task id to
state) and the queue contents at the time of the call. -/
def cancel (store : List (String × TaskState)) (queue : List Event) :
    List (String × TaskState) × List Event × Except ServerError Unit :=
  (store, queue, Except.error ⟨A2AErrorKind.unsupportedOperation⟩)

/-! ## Agent invocation adapter: `MultiURLBrowser.invoke` (agent.py) -/

/-- A `types.Part` of a Gemini content object: its `text` attribute may
be `None`. -/
structure Part where
  text : Option String := none
deriving DecidableEq, Repr

/-- A Gemini `Content`: a list of parts. -/
structure Content where
  parts : List Part := []
deriving DecidableEq, Repr

/-- An ADK engine event as observed by `invoke`: whether
`event.is_final_response()` holds, and `event.content` (possibly
`None`). -/
structure EngineEvent where
  isFinalResponse : Bool
  content : Option Content := none
deriving DecidableEq, Repr

/-- The final-response text extraction in `invoke` (agent.py lines
160-165): `response_text = ""` unless `event.content` is truthy, its
`parts` list is non-empty, and the last part's `text` is truthy, in
which case `response_text = event.content.parts[-1].text`. (An empty
string text is falsy in Python, so `response_text` stays `""` either
way.) -/
def EngineEvent.finalText (e : EngineEvent) : String :=
  match e.content with
  | none => ""
  | some c =>
    match c.parts.getLast? with
    | none => ""
    | some p => p.text.getD ""

/-- The fixed progress dict yielded by `invoke` for a non-final engine
event (agent.py lines 175-178). -/
def progressItem : UpdateItem :=
  { is_task_complete := some false,
    updates := some "Processing the web crawling request..." }

/-- The final dict yielded by `invoke` for a final engine event
(agent.py lines 168-171). -/
def finalItem (text : String) : UpdateItem :=
  { is_task_complete := some true, content := some text }

/-- The event loop of `MultiURLBrowser.invoke` (agent.py lines
155-178): for every event of `self._runner.run_async(...)`, in order,
yields the final dict when `event.is_final_response()` and the progress
dict otherwise. There is no break: every engine event produces exactly
one yielded dict. -/
def invoke (engineEvents : List EngineEvent) : List UpdateItem :=
  engineEvents.map fun e =>
    if e.isFinalResponse then finalItem e.finalText else progressItem

/-- All final textual content fragments produced by the engine across
an invocation: the texts of all parts of all final-response events.
This formalises the spec's "concatenation of all final textual content
fragments" via `String.join`; it is NOT code of the repository. -/
def finalFragments (engineEvents : List EngineEvent) : List String :=
  (engineEvents.filter fun e => e.isFinalResponse).flatMap fun e =>
    ((e.content.getD ⟨[]⟩).parts).filterMap fun p => p.text

/-- Session-resolution model (agent.py lines 131-145).
An ADK session as far as `invoke` observes it: its id and its state
mapping. -/
structure Session where
  id : String
  state : List (String × String) := []
deriving DecidableEq, Repr

/-- `InMemorySessionService` lookup for the fixed `app_name`/`user_id`
pair `invoke` always uses: an association list keyed by session id. -/
def findSession : List (String × Session) → String → Option Session
  | [], _ => none
  | (k, s) :: rest, sid => if k = sid then some s else findSession rest sid

/-- The session-resolution step of `MultiURLBrowser.invoke` (agent.py
lines 131-145): `get_session` for `session_id`; if `None`, a new
session is created with `state={}` and stored. Returns the session used
for the run and the session store afterwards. -/
def resolveSession (store : List (String × Session)) (sessionId : String) :
    Session × List (String × Session) :=
  match findSession store sessionId with
  | some s => (s, store)
  | none =>
    let s : Session := { id := sessionId, state := [] }
    (s, (sessionId, s) :: store)

/-! ## Server entry point: flag/env resolution (`__main__.py`) -/

/-- Python `x or y` on an optional string: `None` and `""` are falsy. -/
def orStr (a : Option String) (b : Option String) : Option String :=
  match a with
  | some s => if s = "" then b else some s
  | none => b

/-- `port = int(os.environ.get("PORT", port or 8080))`
(__main__.py line 47): the `PORT` environment variable, when set,
always wins; otherwise the `--port` flag (`0` and `None` falling back
to `8080`). `envPort` is the parsed value of the `PORT` variable. -/
def resolvePort (portFlag : Option Nat) (envPort : Option Nat) : Nat :=
  match envPort with
  | some p => p
  | none =>
    match portFlag with
    | some p => if p = 0 then 8080 else p
    | none => 8080

/-- `host = host or ("0.0.0.0" if "PORT" in os.environ else "localhost")`
(__main__.py line 50). -/
def resolveHost (hostFlag : Option String) (portEnvSet : Bool) : String :=
  (orStr hostFlag (some (if portEnvSet then "0.0.0.0" else "localhost"))).getD ""

/-- `final_public_url = public_url or os.environ.get("PUBLIC_URL")`
followed by the `http://{host}:{port}/` fallback when that is falsy
(__main__.py lines 55-58). Note the `--public-url` FLAG is the first
operand of `or`, so it, not the environment variable, takes
precedence. -/
def resolvePublicUrl (publicUrlFlag : Option String) (envPublicUrl : Option String)
    (host : String) (port : Nat) : String :=
  match orStr publicUrlFlag envPublicUrl with
  | some u => if u = "" then "http://" ++ host ++ ":" ++ toString port ++ "/" else u
  | none => "http://" ++ host ++ ":" ++ toString port ++ "/"

/-! ## Response parsing: `client.py` and `Scrap_Translate/agent.py` -/

/-- A JSON-like value as produced by `model_dump(mode='json')`. -/
inductive Json where
  | null
  | bool (b : Bool)
  | num (n : Int)
  | str (s : String)
  | arr (xs : List Json)
  | obj (kvs : List (String × Json))

/-- The exception classes that Python subscripting can raise. -/
inductive PyErr where
  | keyError
  | indexError
  | typeError
deriving DecidableEq, Repr

/-- Association-list lookup inside a JSON object. -/
def findField : List (String × Json) → String → Option Json
  | [], _ => none
  | (k, v) :: rest, key => if k = key then some v else findField rest key

/-- Python `value[key]` with a string key: a dict yields the entry or
raises `KeyError`; a list or a string raises `TypeError` (indices must
be integers); any non-subscriptable value raises `TypeError`. -/
def getKey : Json → String → Except PyErr Json
  | Json.obj kvs, key =>
    match findField kvs key with
    | some v => Except.ok v
    | none => Except.error PyErr.keyError
  | Json.arr _, _ => Except.error PyErr.typeError
  | Json.str _, _ => Except.error PyErr.typeError
  | _, _ => Except.error PyErr.typeError

/-- Python `value[i]` with a non-negative integer index: a list yields
the element or raises `IndexError`; a dict with string keys raises
`KeyError` (the integer is not among its keys); a string yields the
one-character substring or raises `IndexError`; any non-subscriptable
value raises `TypeError`. -/
def getIdx : Json → Nat → Except PyErr Json
  | Json.arr xs, i =>
    match xs[i]? with
    | some v => Except.ok v
    | none => Except.error PyErr.indexError
  | Json.obj _, _ => Except.error PyErr.keyError
  | Json.str s, i =>
    match s.toList[i]? with
    | some c => Except.ok (Json.str (String.mk [c]))
    | none => Except.error PyErr.indexError
  | _, _ => Except.error PyErr.typeError

/-- The nested access
`response['result']['status']['message']['parts'][0]['text']` shared by
`client.py` line 159 and `Scrap_Translate/agent.py` line 138, with
Python's exception semantics. -/
def extractText (response : Json) : Except PyErr Json := do
  let result ← getKey response "result"
  let status ← getKey result "status"
  let message ← getKey status "message"
  let parts ← getKey message "parts"
  let part0 ← getIdx parts 0
  getKey part0 "text"

/-- The default / sentinel string that `client.py` line 154 assigns to
`agent_response_text` before attempting the nested access. -/
def clientSentinel : String :=
  "No text content found in response or an error occurred."

/-- The response-parsing step of `client.py` `main` (lines 154-163):
the nested access wrapped in `try ... except (KeyError, IndexError)`,
which leaves the sentinel in place on those two exceptions; any other
exception (in particular `TypeError`) propagates. -/
def parseAgentResponse (response : Json) : Except PyErr Json :=
  match extractText response with
  | Except.ok v => Except.ok v
  | Except.error PyErr.keyError => Except.ok (Json.str clientSentinel)
  | Except.error PyErr.indexError => Except.ok (Json.str clientSentinel)
  | Except.error PyErr.typeError => Except.error PyErr.typeError

/-- The reply extraction of `call_agent` in `Scrap_Translate/agent.py`
(line 138): the same nested access with NO exception handler, so every
exception it raises propagates to the caller. -/
def callAgentReply (response : Json) : Except PyErr Json :=
  extractText response

/-! ## Helper lemmas about the execute loop -/

/-- A `taskCreated` event is never terminal. -/
lemma taskCreated_not_terminal (id ctx : String) :
    Event.isTerminal (Event.taskCreated id ctx) = false := rfl

/-- Unfolding the events of `consume` at a non-final item. -/
lemma consume_fst_nonfinal (t : TaskInfo) (i : UpdateItem) (rest : List UpdateItem)
    (h : i.isFinal = false) :
    (consume t (i :: rest)).1 =
      Event.statusUpdate t.id t.contextId TaskState.working
        (i.updates.getD "Agent is processing...") :: (consume t rest).1 := by
  simp [consume, h]

/-- A non-final item does not change whether the loop breaks. -/
lemma consume_snd_nonfinal (t : TaskInfo) (i : UpdateItem) (rest : List UpdateItem)
    (h : i.isFinal = false) :
    (consume t (i :: rest)).2 = (consume t rest).2 := by
  simp [consume, h]

/-- Unfolding the events of `consume` at a final item: the loop emits
the completed event and breaks, ignoring `rest`. -/
lemma consume_fst_final (t : TaskInfo) (i : UpdateItem) (rest : List UpdateItem)
    (h : i.isFinal = true) :
    (consume t (i :: rest)).1 =
      [Event.statusUpdate t.id t.contextId TaskState.completed
        (i.content.getD "No content received.")] := by
  simp [consume, h]

/-- A final item breaks the loop. -/
lemma consume_snd_final (t : TaskInfo) (i : UpdateItem) (rest : List UpdateItem)
    (h : i.isFinal = true) :
    (consume t (i :: rest)).2 = true := by
  simp [consume, h]

/-- The events of `consume` contain exactly one terminal event when the
loop broke at a final item, and none otherwise. -/
lemma consume_terminal_filter (t : TaskInfo) (items : List UpdateItem) :
    ((consume t items).1.filter Event.isTerminal).length =
      (if (consume t items).2 then 1 else 0) := by
  induction items with
  | nil => simp [consume]
  | cons i rest ih =>
    by_cases h : i.isFinal = true
    · rw [consume_fst_final t i rest h, consume_snd_final t i rest h]
      simp [Event.isTerminal]
    · rw [consume_fst_nonfinal t i rest (by simpa using h),
        consume_snd_nonfinal t i rest (by simpa using h)]
      simpa [Event.isTerminal] using ih

/-- Any terminal event among the events of `consume` is the last
event. -/
lemma consume_terminal_last (t : TaskInfo) (items : List UpdateItem) :
    ∀ ev ∈ (consume t items).1, Event.isTerminal ev = true →
      (consume t items).1.getLast? = some ev := by
  induction items with
  | nil => simp [consume]
  | cons i rest ih =>
    intro ev hev hterm
    by_cases h : i.isFinal = true
    · rw [consume_fst_final t i rest h] at hev ⊢
      simp at hev
      simp [hev]
    · rw [consume_fst_nonfinal t i rest (by simpa using h)] at hev ⊢
      rcases List.mem_cons.mp hev with heq | hmem
      · subst heq
        simp [Event.isTerminal] at hterm
      · have hlast := ih ev hmem hterm
        rcases hq : (consume t rest).1 with _ | ⟨b, tl⟩
        · rw [hq] at hmem
          simp at hmem
        · rw [hq] at hlast
          simpa using hlast

/-- Consuming a run of non-final items prepends one `working` event per
item. -/
lemma consume_append_nonfinal_fst (t : TaskInfo) (l1 l2 : List UpdateItem)
    (h : ∀ x ∈ l1, x.isFinal = false) :
    (consume t (l1 ++ l2)).1 =
      (l1.map fun i => Event.statusUpdate t.id t.contextId TaskState.working
        (i.updates.getD "Agent is processing...")) ++ (consume t l2).1 := by
  induction l1 with
  | nil => simp
  | cons i rest ih =>
    have hi : i.isFinal = false := h i (by simp)
    have hrest : ∀ x ∈ rest, x.isFinal = false := fun x hx => h x (by simp [hx])
    rw [List.cons_append, consume_fst_nonfinal t i (rest ++ l2) hi, ih hrest]
    simp

/-- Consuming a run of non-final items does not change whether the loop
breaks. -/
lemma consume_append_nonfinal_snd (t : TaskInfo) (l1 l2 : List UpdateItem)
    (h : ∀ x ∈ l1, x.isFinal = false) :
    (consume t (l1 ++ l2)).2 = (consume t l2).2 := by
  induction l1 with
  | nil => simp
  | cons i rest ih =>
    have hi : i.isFinal = false := h i (by simp)
    have hrest : ∀ x ∈ rest, x.isFinal = false := fun x hx => h x (by simp [hx])
    rw [List.cons_append, consume_snd_nonfinal t i (rest ++ l2) hi, ih hrest]

/-- The pre-loop events (the task record, if any) are never
terminal. -/
lemma executeCreateEvents_no_terminal (cur : Option TaskInfo) (fresh : TaskInfo) :
    ∀ ev ∈ executeCreateEvents cur fresh, Event.isTerminal ev = false := by
  cases cur <;> simp [executeCreateEvents, Event.isTerminal]

/-- Filtering the pre-loop events for terminal ones gives nothing. -/
lemma executeCreateEvents_filter (cur : Option TaskInfo) (fresh : TaskInfo) :
    (executeCreateEvents cur fresh).filter Event.isTerminal = [] := by
  cases cur <;> simp [executeCreateEvents, Event.isTerminal]

/-- When the loop did not break, `consume` emitted no terminal
event. -/
lemma consume_no_terminal_of_not_broke (t : TaskInfo) (items : List UpdateItem)
    (h : (consume t items).2 = false) :
    ∀ ev ∈ (consume t items).1, Event.isTerminal ev = false := by
  intro ev hmem
  have hfil := consume_terminal_filter t items
  rw [h] at hfil
  simp at hfil
  exact hfil ev hmem

/-! ## Claim theorems -/

/-- C5: every cancellation request fails with a `ServerError` wrapping
`UnsupportedOperationError`, leaves the task store exactly as it was,
and enqueues no event. -/
theorem c5_cancel_unsupported (store : List (String × TaskState)) (queue : List Event) :
    (cancel store queue).1 = store ∧
    (cancel store queue).2.1 = queue ∧
    (cancel store queue).2.2 =
      Except.error ⟨A2AErrorKind.unsupportedOperation⟩ := by
  exact ⟨rfl, rfl, rfl⟩

/-- C6: when the request context carries no existing task, `execute`
allocates a fresh task and enqueues the event announcing it first: the
event list starts with the `taskCreated` event, followed by exactly the
events of the same run with the task already present — so the creation
event precedes every working and terminal event of the task. -/
theorem c6_creation_event_first (fresh : TaskInfo) (items : List UpdateItem)
    (err : Option String) :
    (execute none fresh items err).1 =
      Event.taskCreated fresh.id fresh.contextId ::
        (execute (some fresh) fresh items err).1 ∧
    (execute none fresh items err).1.head? =
      some (Event.taskCreated fresh.id fresh.contextId) ∧
    (execute none fresh items err).2 = (execute (some fresh) fresh items err).2 := by
  unfold execute executeCreateEvents executeTask
  simp only [Option.getD_none, Option.getD_some]
  cases h : (consume fresh items).2 <;> cases err <;> simp [h]

/-- C9: `execute` is total over items with missing keys: an item with
no `is_task_complete` key behaves as a Progress item, one additionally
missing `updates` emits the default message `Agent is processing...`,
and a final item missing `content` emits the default string
`No content received.` — no missing key raises. -/
theorem c9_missing_keys_defaults (t fresh : TaskInfo) (rest : List UpdateItem)
    (err : Option String) :
    execute (some t) fresh ((⟨none, none, none⟩ : UpdateItem) :: rest) err =
      (Event.statusUpdate t.id t.contextId TaskState.working
          "Agent is processing..." :: (execute (some t) fresh rest err).1,
        (execute (some t) fresh rest err).2) ∧
    execute (some t) fresh ((⟨some true, none, none⟩ : UpdateItem) :: rest) err =
      ([Event.statusUpdate t.id t.contextId TaskState.completed
          "No content received."], none) := by
  constructor
  · unfold execute executeCreateEvents executeTask
    simp only [Option.getD_some]
    rw [consume_fst_nonfinal t ⟨none, none, none⟩ rest rfl,
      consume_snd_nonfinal t ⟨none, none, none⟩ rest rfl]
    cases h : (consume t rest).2 <;> cases err <;> simp [h]
  · unfold execute executeCreateEvents executeTask
    simp only [Option.getD_some]
    rw [consume_fst_final t ⟨some true, none, none⟩ rest rfl,
      consume_snd_final t ⟨some true, none, none⟩ rest rfl]
    simp

/-- C1: for every update sequence consumed by `execute`, at most one
terminal status event (`completed` or `failed`) is emitted, any
terminal event emitted is the last event, and every item after the
first final item is ignored: the run on `l1 ++ f :: l2` (non-final
`l1`, final `f`) equals the run on `l1 ++ [f]`, whatever follows `f`
and whether or not the abandoned generator would have raised. -/
theorem c1_single_terminal_and_first_final_wins
    (cur : Option TaskInfo) (fresh : TaskInfo)
    (items l1 l2 : List UpdateItem) (f : UpdateItem) (err : Option String)
    (h1 : ∀ x ∈ l1, x.isFinal = false) (hf : f.isFinal = true) :
    ((execute cur fresh items err).1.filter Event.isTerminal).length ≤ 1 ∧
    (∀ ev ∈ (execute cur fresh items err).1, Event.isTerminal ev = true →
      (execute cur fresh items err).1.getLast? = some ev) ∧
    execute cur fresh (l1 ++ f :: l2) err = execute cur fresh (l1 ++ [f]) err := by
  refine ⟨?_, ?_, ?_⟩
  · by_cases hb : (consume (executeTask cur fresh) items).2 = true
    · have hfil := consume_terminal_filter (executeTask cur fresh) items
      rw [hb] at hfil
      simp only [if_true] at hfil
      simp [execute, hb, List.filter_append, executeCreateEvents_filter, hfil]
    · rw [Bool.not_eq_true] at hb
      have hfil := consume_terminal_filter (executeTask cur fresh) items
      rw [hb] at hfil
      simp only [Bool.false_eq_true, if_false] at hfil
      cases err with
      | none =>
        simp [execute, hb, List.filter_append, executeCreateEvents_filter, hfil]
      | some e =>
        simp [execute, hb, List.filter_append, executeCreateEvents_filter, hfil,
          Event.isTerminal]
  · intro ev hmem hterm
    by_cases hb : (consume (executeTask cur fresh) items).2 = true
    · simp only [execute, hb, if_true] at hmem ⊢
      rcases List.mem_append.mp hmem with hce | hco
      · have := executeCreateEvents_no_terminal cur fresh ev hce
        rw [this] at hterm
        exact absurd hterm (by simp)
      · have hlast := consume_terminal_last (executeTask cur fresh) items ev hco hterm
        rw [List.getLast?_append_of_ne_nil _ (List.ne_nil_of_mem hco)]
        exact hlast
    · rw [Bool.not_eq_true] at hb
      cases err with
      | none =>
        simp only [execute, hb, Bool.false_eq_true, if_false] at hmem ⊢
        rcases List.mem_append.mp hmem with hce | hco
        · have := executeCreateEvents_no_terminal cur fresh ev hce
          rw [this] at hterm
          exact absurd hterm (by simp)
        · have := consume_no_terminal_of_not_broke (executeTask cur fresh) items hb ev hco
          rw [this] at hterm
          exact absurd hterm (by simp)
      | some e =>
        simp only [execute, hb, Bool.false_eq_true, if_false] at hmem ⊢
        rcases List.mem_append.mp hmem with hpre | hfail
        · rcases List.mem_append.mp hpre with hce | hco
          · have := executeCreateEvents_no_terminal cur fresh ev hce
            rw [this] at hterm
            exact absurd hterm (by simp)
          · have := consume_no_terminal_of_not_broke (executeTask cur fresh) items hb ev hco
            rw [this] at hterm
            exact absurd hterm (by simp)
        · simp at hfail
          rw [hfail, List.getLast?_concat]
  · have hsnd1 : (consume (executeTask cur fresh) (l1 ++ f :: l2)).2 = true := by
      rw [consume_append_nonfinal_snd _ l1 (f :: l2) h1, consume_snd_final _ f l2 hf]
    have hsnd2 : (consume (executeTask cur fresh) (l1 ++ [f])).2 = true := by
      rw [consume_append_nonfinal_snd _ l1 [f] h1, consume_snd_final _ f [] hf]
    have hfst : (consume (executeTask cur fresh) (l1 ++ f :: l2)).1 =
        (consume (executeTask cur fresh) (l1 ++ [f])).1 := by
      rw [consume_append_nonfinal_fst _ l1 (f :: l2) h1,
        consume_append_nonfinal_fst _ l1 [f] h1,
        consume_fst_final _ f l2 hf, consume_fst_final _ f [] hf]
    simp [execute, hsnd1, hsnd2, hfst]

/-- Witness for C1 at concrete inputs: one final item, and a stream
with a working item, a final item, and a trailing ignored item. -/
theorem c1_single_terminal_and_first_final_wins_witness :
    ((execute none ⟨"t1", "c1"⟩ [⟨some true, none, some "done"⟩] none).1.filter
        Event.isTerminal).length ≤ 1 ∧
    (∀ ev ∈ (execute none ⟨"t1", "c1"⟩ [⟨some true, none, some "done"⟩] none).1,
      Event.isTerminal ev = true →
      (execute none ⟨"t1", "c1"⟩ [⟨some true, none, some "done"⟩] none).1.getLast? =
        some ev) ∧
    execute none ⟨"t1", "c1"⟩
        ([⟨some false, some "w", none⟩] ++
          (⟨some true, none, some "x"⟩ : UpdateItem) :: [⟨some false, none, none⟩]) none =
      execute none ⟨"t1", "c1"⟩
        ([⟨some false, some "w", none⟩] ++ [⟨some true, none, some "x"⟩]) none :=
  c1_single_terminal_and_first_final_wins none ⟨"t1", "c1"⟩
    [⟨some true, none, some "done"⟩] [⟨some false, some "w", none⟩]
    [⟨some false, none, none⟩] ⟨some true, none, some "x"⟩ none
    (by decide) (by decide)

/-- C3: when the engine raises before any final item was seen,
`execute` enqueues a `failed` status event carrying the non-empty
message `An error occurred: ...` as the last event, and re-raises the
same exception to the caller. -/
theorem c3_failed_event_then_reraise (cur : Option TaskInfo) (fresh : TaskInfo)
    (items : List UpdateItem) (e : String)
    (hnb : (consume (executeTask cur fresh) items).2 = false) :
    (execute cur fresh items (some e)).2 = some e ∧
    (execute cur fresh items (some e)).1.getLast? =
      some (Event.statusUpdate (executeTask cur fresh).id
        (executeTask cur fresh).contextId TaskState.failed
        ("An error occurred: " ++ e)) ∧
    ("An error occurred: " ++ e) ≠ "" := by
  refine ⟨?_, ?_, ?_⟩
  · simp [execute, hnb]
  · simp [execute, hnb, List.getLast?_concat]
  · intro hcontra
    have hlen := congrArg String.length hcontra
    rw [String.length_append] at hlen
    have h0 : ("" : String).length = 0 := rfl
    have h19 : ("An error occurred: " : String).length = 19 := rfl
    rw [h0, h19] at hlen
    omega

/-- Witness for C3: a stream with one working item and then an engine
exception `boom`, on an existing task. -/
theorem c3_failed_event_then_reraise_witness :
    (execute (some ⟨"t2", "c2"⟩) ⟨"t2", "c2"⟩ [⟨some false, some "step", none⟩]
        (some "boom")).2 = some "boom" ∧
    (execute (some ⟨"t2", "c2"⟩) ⟨"t2", "c2"⟩ [⟨some false, some "step", none⟩]
        (some "boom")).1.getLast? =
      some (Event.statusUpdate (executeTask (some ⟨"t2", "c2"⟩) ⟨"t2", "c2"⟩).id
        (executeTask (some ⟨"t2", "c2"⟩) ⟨"t2", "c2"⟩).contextId TaskState.failed
        ("An error occurred: " ++ "boom")) ∧
    ("An error occurred: " ++ "boom") ≠ "" :=
  c3_failed_event_then_reraise (some ⟨"t2", "c2"⟩) ⟨"t2", "c2"⟩
    [⟨some false, some "step", none⟩] "boom" (by decide)

/-- The output shape C2 claims for `invoke`, following the spec's
words (NOT the code): all updates except the last are Progress, and
the last is a Final whose `content` is the concatenation of all final
textual content fragments produced by the engine. Used only to compare
the claim against the code's `invoke`. -/
def invokeClaimedShape (engineEvents : List EngineEvent) : Prop :=
  (∀ u ∈ (invoke engineEvents).dropLast, u.isFinal = false) ∧
  (match (invoke engineEvents).getLast? with
    | some u => u.isFinal && u.content == some (String.join (finalFragments engineEvents))
    | none => false) = true

/-- C2 counterexample: a single final engine event whose content has
two textual parts `a` and `b` makes `invoke` yield a Final carrying
only `b`, not the concatenation `ab`; and an engine producing two
final events makes `invoke` yield two Final updates, not exactly
one. -/
theorem c2_counterexample :
    ¬ invokeClaimedShape [⟨true, some ⟨[⟨some "a"⟩, ⟨some "b"⟩]⟩⟩] ∧
    ¬ invokeClaimedShape
        [⟨true, some ⟨[⟨some "a"⟩]⟩⟩, ⟨true, some ⟨[⟨some "b"⟩]⟩⟩] := by
  constructor
  · intro h
    have h2 := h.2
    simp [invoke, invokeClaimedShape, EngineEvent.finalText, finalItem,
      finalFragments, UpdateItem.isFinal] at h2
    exact absurd h2 (by decide)
  · intro h
    have h1 := h.1 (finalItem "a")
    simp [invoke, invokeClaimedShape, EngineEvent.finalText, finalItem,
      UpdateItem.isFinal] at h1

/-- C2 (amended): `invoke` yields exactly one update per engine event
(a Progress for each non-final event, a Final for each final event
carrying the text of the LAST part of that event's content, empty when
absent); hence when the engine produces zero or more non-final events
followed by exactly one final event, the output is that many Progress
values followed by exactly one Final carrying the final event's last
textual part. -/
theorem c2_progress_then_final (pre : List EngineEvent) (f : EngineEvent)
    (hpre : ∀ e ∈ pre, e.isFinalResponse = false)
    (hf : f.isFinalResponse = true) :
    invoke (pre ++ [f]) =
      (pre.map fun _ => progressItem) ++ [finalItem f.finalText] := by
  unfold invoke
  rw [List.map_append]
  congr 1
  · exact List.map_congr_left fun e he => by rw [hpre e he]; rfl
  · simp [hf]

/-- Witness for C2 (amended): one non-final event, then a final event
with text `hello`. -/
theorem c2_progress_then_final_witness :
    invoke ([⟨false, none⟩] ++ [⟨true, some ⟨[⟨some "hello"⟩]⟩⟩]) =
      (([⟨false, none⟩] : List EngineEvent).map fun _ => progressItem) ++
        [finalItem (EngineEvent.finalText ⟨true, some ⟨[⟨some "hello"⟩]⟩⟩)] :=
  c2_progress_then_final [⟨false, none⟩] ⟨true, some ⟨[⟨some "hello"⟩]⟩⟩
    (by decide) (by decide)

/-- C7: session resolution is idempotent in the session id: an
existing session is reused and the store is untouched; a missing
session is created with empty state and stored; resolving again with
the same id returns the very session of the first call and leaves the
store unchanged. -/
theorem c7_session_resolution_idempotent (store : List (String × Session))
    (sid : String) (s0 : Session) :
    resolveSession ((sid, s0) :: store) sid = (s0, (sid, s0) :: store) ∧
    (findSession store sid = none →
      (resolveSession store sid).1 = ⟨sid, []⟩ ∧
      (resolveSession store sid).2 = (sid, ⟨sid, []⟩) :: store) ∧
    resolveSession (resolveSession store sid).2 sid =
      ((resolveSession store sid).1, (resolveSession store sid).2) := by
  refine ⟨?_, ?_, ?_⟩
  · simp [resolveSession, findSession]
  · intro h
    simp [resolveSession, h]
  · cases h : findSession store sid with
    | some s => simp [resolveSession, h]
    | none => simp [resolveSession, h, findSession]

/-- Witness for C7: an existing session with non-empty state is reused
unchanged, and on the empty store a fresh empty session is created and
found again by the second resolution. -/
theorem c7_session_resolution_idempotent_witness :
    resolveSession [("s1", ⟨"s1", [("k", "v")]⟩)] "s1" =
      (⟨"s1", [("k", "v")]⟩, [("s1", ⟨"s1", [("k", "v")]⟩)]) ∧
    ((resolveSession [] "s1").1 = ⟨"s1", []⟩ ∧
      (resolveSession [] "s1").2 = [("s1", ⟨"s1", []⟩)]) ∧
    resolveSession (resolveSession ([] : List (String × Session)) "s1").2 "s1" =
      ((resolveSession [] "s1").1, (resolveSession [] "s1").2) :=
  ⟨(c7_session_resolution_idempotent [] "s1" ⟨"s1", [("k", "v")]⟩).1,
    (c7_session_resolution_idempotent [] "s1" ⟨"s1", []⟩).2.1 rfl,
    (c7_session_resolution_idempotent [] "s1" ⟨"s1", []⟩).2.2⟩

/-- C8: the `PORT` environment variable always overrides the `--port`
flag, but the `--public-url` FLAG overrides the `PUBLIC_URL`
environment variable (the code computes `public_url or
os.environ.get("PUBLIC_URL")`), contradicting both the claim and the
option's own help text: with both set, the flag value wins. -/
theorem c8_public_url_flag_wins :
    (∀ flagPort envPort, resolvePort flagPort (some envPort) = envPort) ∧
    resolvePort (some 9999) (some 7777) = 7777 ∧
    resolvePublicUrl (some "http://flag.example/") (some "http://env.example/")
      "localhost" 8080 = "http://flag.example/" ∧
    resolvePublicUrl (some "http://flag.example/") (some "http://env.example/")
      "localhost" 8080 ≠ "http://env.example/" := by
  refine ⟨fun _ _ => rfl, rfl, by decide, by decide⟩

/-- C4 counterexample: on the claim's own example — a response missing
`result.status` — the code substitutes its long default string, which
is not the claimed sentinel `no content found`; and a response whose
`result` is a string makes the nested access raise `TypeError`, which
`except (KeyError, IndexError)` does not catch, so an exception does
propagate out of response parsing. -/
theorem c4_counterexample :
    parseAgentResponse (Json.obj [("result", Json.obj [])]) ≠
      Except.ok (Json.str "no content found") ∧
    parseAgentResponse (Json.obj [("result", Json.str "oops")]) =
      Except.error PyErr.typeError := by
  constructor
  · intro h
    rw [show parseAgentResponse (Json.obj [("result", Json.obj [])]) =
        Except.ok (Json.str clientSentinel) from rfl] at h
    injection h with h1
    injection h1 with h2
    exact absurd h2 (by decide)
  · rfl

/-- C4 (amended): when the nested access fails with `KeyError` or
`IndexError` (for example a response missing `result.status`), the
client substitutes the sentinel string `No text content found in
response or an error occurred.` and does not raise; a successful
access is returned as is; but an access failing with `TypeError` (a
non-container where a container is expected) propagates the
exception. -/
theorem c4_sentinel_on_key_or_index_error (resp : Json) :
    (extractText resp = Except.error PyErr.keyError →
      parseAgentResponse resp = Except.ok (Json.str clientSentinel)) ∧
    (extractText resp = Except.error PyErr.indexError →
      parseAgentResponse resp = Except.ok (Json.str clientSentinel)) ∧
    (extractText resp = Except.error PyErr.typeError →
      parseAgentResponse resp = Except.error PyErr.typeError) ∧
    (∀ v, extractText resp = Except.ok v →
      parseAgentResponse resp = Except.ok v) := by
  refine ⟨?_, ?_, ?_, ?_⟩
  · intro h
    simp [parseAgentResponse, h]
  · intro h
    simp [parseAgentResponse, h]
  · intro h
    simp [parseAgentResponse, h]
  · intro v h
    simp [parseAgentResponse, h]

/-- Witness for C4 (amended): a response missing `result.status`, one
with an empty `parts` array, and one whose `result` is a string. -/
theorem c4_sentinel_on_key_or_index_error_witness :
    parseAgentResponse (Json.obj [("result", Json.obj [])]) =
      Except.ok (Json.str clientSentinel) ∧
    parseAgentResponse (Json.obj [("result", Json.obj [("status",
        Json.obj [("message", Json.obj [("parts", Json.arr [])])])])]) =
      Except.ok (Json.str clientSentinel) ∧
    parseAgentResponse (Json.obj [("result", Json.str "oops")]) =
      Except.error PyErr.typeError :=
  ⟨(c4_sentinel_on_key_or_index_error (Json.obj [("result", Json.obj [])])).1 rfl,
    (c4_sentinel_on_key_or_index_error (Json.obj [("result", Json.obj [("status",
      Json.obj [("message", Json.obj [("parts", Json.arr [])])])])])).2.1 rfl,
    (c4_sentinel_on_key_or_index_error (Json.obj [("result", Json.str "oops")])).2.2.1 rfl⟩

/-- C10: `call_agent`'s unchecked nested access raises `KeyError` for
a response missing `result`, `IndexError` for an empty `parts` array,
and `TypeError` when `result` is a list — each propagating to the
caller with no sentinel substituted — while a well-formed response
yields its text. -/
theorem c10_call_agent_raises :
    callAgentReply (Json.obj [("id", Json.num 1)]) =
      Except.error PyErr.keyError ∧
    callAgentReply (Json.obj [("result", Json.obj [("status",
        Json.obj [("message", Json.obj [("parts", Json.arr [])])])])]) =
      Except.error PyErr.indexError ∧
    callAgentReply (Json.obj [("result", Json.arr [])]) =
      Except.error PyErr.typeError ∧
    callAgentReply (Json.obj [("result", Json.obj [("status",
        Json.obj [("message", Json.obj [("parts", Json.arr [Json.obj
          [("kind", Json.str "text"), ("text", Json.str "hello")]])])])])]) =
      Except.ok (Json.str "hello") :=
  ⟨rfl, rfl, rfl, rfl⟩

end A2ADemo
